import Mathlib

/-!
Verification of the kcpwd credential-management utility (`src/kcpwd/core.py`
and the `require_password` injection decorator).

The OS keyring backend is modelled as a map from (service, key) pairs to
optionally stored values.  Each core function is embedded as a pure Lean
function over an environment that carries the keyring state, the clipboard
state, and flags saying whether each underlying OS call raises an exception
on this invocation (the Python code wraps every backend call in a
`try/except` that coalesces exceptions into `False`/`None` results).
-/

namespace Kcpwd

/-- The OS keyring backend state: a map from (service, key) to the stored
value, `none` when no record exists for that pair. -/
def Keyring : Type := String → String → Option String

/-- Read the value stored for (service, key), mirroring
`keyring.get_password(service, key)` when it does not raise. -/
def Keyring.get (st : Keyring) (service key : String) : Option String :=
  st service key

/-- Write/overwrite the value for (service, key), mirroring the upsert
semantics of `keyring.set_password(service, key, value)`. -/
def Keyring.set (st : Keyring) (service key value : String) : Keyring :=
  fun s k => if s == service && k == key then some value else st s k

/-- Remove the record for (service, key), mirroring
`keyring.delete_password(service, key)` when it does not raise. -/
def Keyring.del (st : Keyring) (service key : String) : Keyring :=
  fun s k => if s == service && k == key then none else st s k

/-- The empty keyring: no record stored for any (service, key). -/
def Keyring.empty : Keyring := fun _ _ => none

/-- `SERVICE_NAME = "kcpwd"` from `core.py`: the fixed namespace constant. -/
def SERVICE_NAME : String := "kcpwd"

/-- Python truthiness of an optional string: `None` and the empty string are
falsy, every other string is truthy.  Used by `if password and copy_to_clip`
in `get_password`. -/
def pyTruthy : Option String → Bool
  | none => false
  | some s => !(s == "")

/-- The environment a single core-function invocation runs in: the keyring
state, the clipboard state, and one flag per kind of underlying OS call
saying whether that call raises an exception during this invocation. -/
structure Env where
  kr : Keyring
  clipboard : Option String
  getRaises : Bool
  setRaises : Bool
  delRaises : Bool
  popenRaises : Bool

/-- Result of `copy_to_clipboard`: the returned boolean and the clipboard
contents afterwards. -/
structure ClipOut where
  success : Bool
  clipboard : Option String

/-- `copy_to_clipboard(text)` from `core.py`: spawns `pbcopy` feeding `text`
on stdin and returns `True`; if the subprocess invocation raises, the
exception is caught and `False` is returned (clipboard left as it was). -/
def copy_to_clipboard (popenRaises : Bool) (clipboard0 : Option String)
    (text : String) : ClipOut :=
  if popenRaises then
    { success := false, clipboard := clipboard0 }
  else
    { success := true, clipboard := some text }

/-- Result of `set_password`: the returned boolean and the keyring state
afterwards. -/
structure SetOut where
  ret : Bool
  kr : Keyring

/-- `set_password(key, password)` from `core.py`: calls
`keyring.set_password(SERVICE_NAME, key, password)` and returns `True`;
any exception is caught and `False` is returned. -/
def set_password (env : Env) (key password : String) : SetOut :=
  if env.setRaises then
    { ret := false, kr := env.kr }
  else
    { ret := true, kr := env.kr.set SERVICE_NAME key password }

/-- Result of `get_password`: the returned optional value, the keyring state
afterwards, the clipboard state afterwards, and the argument passed to
`copy_to_clipboard` (`none` when the clipboard helper was not invoked). -/
structure GetOut where
  ret : Option String
  kr : Keyring
  clipboard : Option String
  clipArg : Option String

/-- `get_password(key, copy_to_clip=False)` from `core.py`: reads
`keyring.get_password(SERVICE_NAME, key)`; if the result is truthy and
`copy_to_clip` is set, invokes `copy_to_clipboard` on it (ignoring its
boolean result); returns the read value.  Any exception from the keyring
read is caught and `None` is returned. -/
def get_password (env : Env) (key : String) (copy_to_clip : Bool) : GetOut :=
  if env.getRaises then
    { ret := none, kr := env.kr, clipboard := env.clipboard, clipArg := none }
  else
    let password := env.kr.get SERVICE_NAME key
    if pyTruthy password && copy_to_clip then
      let c := copy_to_clipboard env.popenRaises env.clipboard (password.getD "")
      { ret := password, kr := env.kr, clipboard := c.clipboard,
        clipArg := some (password.getD "") }
    else
      { ret := password, kr := env.kr, clipboard := env.clipboard,
        clipArg := none }

/-- Result of `delete_password`: the returned boolean, the keyring state
afterwards, and whether `keyring.delete_password` was actually invoked. -/
structure DelOut where
  ret : Bool
  kr : Keyring
  attemptedDelete : Bool

/-- `delete_password(key)` from `core.py`: reads
`keyring.get_password(SERVICE_NAME, key)`; if the result `is None`,
returns `False` without attempting deletion; otherwise calls
`keyring.delete_password(SERVICE_NAME, key)` and returns `True`.  Any
exception from either call is caught and `False` is returned. -/
def delete_password (env : Env) (key : String) : DelOut :=
  if env.getRaises then
    { ret := false, kr := env.kr, attemptedDelete := false }
  else
    let password := env.kr.get SERVICE_NAME key
    if password = none then
      { ret := false, kr := env.kr, attemptedDelete := false }
    else if env.delRaises then
      { ret := false, kr := env.kr, attemptedDelete := true }
    else
      { ret := true, kr := env.kr.del SERVICE_NAME key, attemptedDelete := true }

/-- Keyword arguments of a Python call, as an association list from
parameter name to string value. -/
def Kwargs : Type := List (String × String)

/-- Look up a keyword argument by name (`kwargs.get(name)`). -/
def Kwargs.get (kw : Kwargs) (name : String) : Option String :=
  (kw.find? (fun p => p.1 == name)).map Prod.snd

/-- Set a keyword argument (`kwargs[name] = value`): replaces the binding if
present, appends it otherwise. -/
def Kwargs.insert (kw : Kwargs) (name value : String) : Kwargs :=
  match kw with
  | [] => [(name, value)]
  | p :: rest =>
    if p.1 == name then (name, value) :: rest
    else p :: Kwargs.insert rest name value

/-- Modelled from the spec: the error message of the injection decorator's
"secret not found" failure, which must contain the missing key name
(`src/kcpwd/decorators.py` is not present under `src/`; its tests expect
the message to contain "Password not found"). -/
def requireMsg (key : String) : String :=
  "Password not found for key: " ++ key

/-- Modelled from the spec: the call-time argument resolution of the
`require_password(key, param_name)` injection decorator
(`src/kcpwd/decorators.py` is not present under `src/`).  At each
invocation: if the keyword arguments hold a non-empty value for
`param_name`, they are passed through unchanged; otherwise the secret for
`key` is resolved through `get_password` (no clipboard copy) and, if found,
injected under `param_name`; if not found, the call fails with an error
whose message contains the key name, before the inner function runs. -/
def require_password_wrap (env : Env) (key param_name : String)
    (kwargs : Kwargs) : Except String Kwargs :=
  if pyTruthy (kwargs.get param_name) then
    Except.ok kwargs
  else
    match (get_password env key false).ret with
    | some pw => Except.ok (kwargs.insert param_name pw)
    | none => Except.error (requireMsg key)

/-- Modelled from the spec: invoking a function wrapped by
`require_password` — the inner function `f` runs exactly when argument
resolution succeeds, on the resolved keyword arguments. -/
def require_password_call {α : Type} (env : Env) (key param_name : String)
    (f : Kwargs → α) (kwargs : Kwargs) : Except String α :=
  match require_password_wrap env key param_name kwargs with
  | Except.ok kw => Except.ok (f kw)
  | Except.error e => Except.error e

/-- A concrete environment where every backend call succeeds and the key
"k" holds "old". -/
def envOld : Env :=
  { kr := Keyring.empty.set SERVICE_NAME "k" "old", clipboard := none,
    getRaises := false, setRaises := false, delRaises := false,
    popenRaises := false }

/-- A concrete environment where every backend call succeeds and the key
"k" holds "v". -/
def envV : Env :=
  { kr := Keyring.empty.set SERVICE_NAME "k" "v", clipboard := none,
    getRaises := false, setRaises := false, delRaises := false,
    popenRaises := false }

/-- A concrete environment where every backend call succeeds and the key
"k" holds the empty string. -/
def envEmptyVal : Env :=
  { kr := Keyring.empty.set SERVICE_NAME "k" "", clipboard := none,
    getRaises := false, setRaises := false, delRaises := false,
    popenRaises := false }

/-- A concrete environment with an empty keyring and every backend call
succeeding. -/
def envNone : Env :=
  { kr := Keyring.empty, clipboard := none,
    getRaises := false, setRaises := false, delRaises := false,
    popenRaises := false }

/-- A concrete environment where every backend call raises. -/
def envAllRaise : Env :=
  { kr := Keyring.empty, clipboard := none,
    getRaises := true, setRaises := true, delRaises := true,
    popenRaises := true }

/-- A concrete environment where every backend call succeeds and the key
"testkey" holds "testpass123", as in the decorator tests. -/
def envT : Env :=
  { kr := Keyring.empty.set SERVICE_NAME "testkey" "testpass123",
    clipboard := none, getRaises := false, setRaises := false,
    delRaises := false, popenRaises := false }

/-- Keyword arguments supplying an explicit password, as in the decorator
precedence test. -/
def kw1 : Kwargs := [("password", "manual_pass")]

/-- Empty keyword arguments. -/
def kw0 : Kwargs := []

/-- A concrete inner function for evaluating the decorator model: reads the
"password" keyword argument back out. -/
def readPw : Kwargs → String := fun kw => (Kwargs.get kw "password").getD ""

/-- Reading back the pair just written yields the written value. -/
theorem Keyring.get_set_self (st : Keyring) (service key value : String) :
    (st.set service key value).get service key = some value := by
  unfold Keyring.set Keyring.get
  simp

/-- Reading back the pair just deleted yields `none`. -/
theorem Keyring.get_del_self (st : Keyring) (service key : String) :
    (st.del service key).get service key = none := by
  unfold Keyring.del Keyring.get
  simp

/-- When the keyring read does not raise, `get_password` returns exactly the
stored value for (SERVICE_NAME, key), whatever the clipboard flag. -/
theorem get_password_ret (env : Env) (key : String) (c : Bool)
    (hg : env.getRaises = false) :
    (get_password env key c).ret = env.kr.get SERVICE_NAME key := by
  unfold get_password
  simp only [hg, Bool.false_eq_true, if_false]
  split <;> rfl

/-- `get_password` never touches the keyring state. -/
theorem get_password_kr (env : Env) (key : String) (c : Bool) :
    (get_password env key c).kr = env.kr := by
  unfold get_password
  split
  · rfl
  · dsimp only
    split <;> rfl

/-- Claim C1: round-trip with upsert — whenever `set_password key value`
returns `true`, a following `get_password key` (whose keyring read does not
raise) returns exactly `some value`, including when the key already held a
different value beforehand: the prior value is overwritten. -/
theorem C1_set_then_get_roundtrip (env : Env) (key value : String) (c : Bool)
    (hset : (set_password env key value).ret = true)
    (hg : env.getRaises = false) :
    (get_password { env with kr := (set_password env key value).kr } key c).ret
      = some value := by
  have hs : env.setRaises = false := by
    by_contra hc
    simp only [Bool.not_eq_false] at hc
    simp [set_password, hc] at hset
  rw [get_password_ret { env with kr := (set_password env key value).kr } key c hg]
  show (set_password env key value).kr.get SERVICE_NAME key = some value
  simp [set_password, hs, Keyring.get_set_self]

/-- Concrete instance of claim C1: overwriting the stored value "old" of key
"k" with "v2" and reading it back. -/
theorem C1_set_then_get_roundtrip_witness :
    (set_password envOld "k" "v2").ret = true ∧
    envOld.getRaises = false ∧
    (get_password { envOld with kr := (set_password envOld "k" "v2").kr }
      "k" false).ret = some "v2" :=
  ⟨by decide, by decide,
    C1_set_then_get_roundtrip envOld "k" "v2" false (by decide) (by decide)⟩

/-- Claim C2: delete removes — whenever `delete_password key` returns `true`,
an immediately following `get_password key` returns `none`. -/
theorem C2_delete_removes (env : Env) (key : String) (c : Bool)
    (hdel : (delete_password env key).ret = true) :
    (get_password { env with kr := (delete_password env key).kr } key c).ret
      = none := by
  have hg : env.getRaises = false := by
    by_contra hc
    simp only [Bool.not_eq_false] at hc
    simp [delete_password, hc] at hdel
  rw [get_password_ret { env with kr := (delete_password env key).kr } key c hg]
  show (delete_password env key).kr.get SERVICE_NAME key = none
  unfold delete_password at hdel ⊢
  cases hp : env.kr.get SERVICE_NAME key with
  | none => simp [hg, hp] at hdel
  | some v =>
    cases hd : env.delRaises with
    | true => simp [hg, hp, hd] at hdel
    | false => simp [hg, hp, hd, Keyring.get_del_self]

/-- Concrete instance of claim C2: deleting the stored key "k" and reading
it back. -/
theorem C2_delete_removes_witness :
    (delete_password envV "k").ret = true ∧
    (get_password { envV with kr := (delete_password envV "k").kr }
      "k" false).ret = none :=
  ⟨by decide, C2_delete_removes envV "k" false (by decide)⟩

/-- Claim C3: delete-missing is false — deleting a key with no stored value
returns `false`, never invokes the backend deletion call, and leaves the
keyring unchanged. -/
theorem C3_delete_missing_false (env : Env) (key : String)
    (habs : env.kr.get SERVICE_NAME key = none) :
    (delete_password env key).ret = false ∧
    (delete_password env key).attemptedDelete = false ∧
    (delete_password env key).kr = env.kr := by
  unfold delete_password
  by_cases hg : env.getRaises
  · simp [hg]
  · simp [hg, habs]

/-- Concrete instance of claim C3: deleting from an empty keyring. -/
theorem C3_delete_missing_false_witness :
    envNone.kr.get SERVICE_NAME "k" = none ∧
    (delete_password envNone "k").ret = false ∧
    (delete_password envNone "k").attemptedDelete = false :=
  ⟨by decide, (C3_delete_missing_false envNone "k" (by decide)).1,
    (C3_delete_missing_false envNone "k" (by decide)).2.1⟩

/-- Claim C4: exception coalescing — whatever the backend does, the three
operations return plain results and never propagate an exception: a raising
keyring read makes `get_password` return `none` (indistinguishable from the
key not existing), a raising write makes `set_password` return `false`, and
a raise during either step of `delete_password` makes it return `false`. -/
theorem C4_exception_coalescing (env : Env) (key value : String) (c : Bool) :
    (env.getRaises = true → (get_password env key c).ret = none) ∧
    (env.setRaises = true → (set_password env key value).ret = false) ∧
    ((env.getRaises = true ∨ env.delRaises = true) →
      (delete_password env key).ret = false) := by
  refine ⟨fun h => by simp [get_password, h],
    fun h => by simp [set_password, h], fun h => ?_⟩
  unfold delete_password
  by_cases hg : env.getRaises
  · simp [hg]
  · rcases h with h | h
    · exact absurd h hg
    · cases hp : env.kr.get SERVICE_NAME key <;> simp [hg, hp, h]

/-- Concrete instance of claim C4: every backend call raising, at key "k". -/
theorem C4_exception_coalescing_witness :
    (get_password envAllRaise "k" false).ret = none ∧
    (set_password envAllRaise "k" "v").ret = false ∧
    (delete_password envAllRaise "k").ret = false := by
  have h := C4_exception_coalescing envAllRaise "k" "v" false
  exact ⟨h.1 rfl, h.2.1 rfl, h.2.2 (Or.inl rfl)⟩

/-- Claim C5: clipboard decoupling — for a key with a stored value,
`get_password` with the clipboard flag returns that value whether the
clipboard helper invocation fails or succeeds; the clipboard outcome never
reaches the returned value. -/
theorem C5_clipboard_decoupling (env : Env) (key value : String)
    (hg : env.getRaises = false)
    (h : env.kr.get SERVICE_NAME key = some value) :
    (get_password { env with popenRaises := true } key true).ret = some value ∧
    (get_password { env with popenRaises := false } key true).ret
      = some value := by
  refine ⟨?_, ?_⟩
  · rw [get_password_ret { env with popenRaises := true } key true hg]
    exact h
  · rw [get_password_ret { env with popenRaises := false } key true hg]
    exact h

/-- Concrete instance of claim C5: retrieving the stored key "k" with the
clipboard flag set, under both clipboard-helper behaviors. -/
theorem C5_clipboard_decoupling_witness :
    envV.kr.get SERVICE_NAME "k" = some "v" ∧
    (get_password { envV with popenRaises := true } "k" true).ret
      = some "v" ∧
    (get_password { envV with popenRaises := false } "k" true).ret
      = some "v" :=
  ⟨by decide, (C5_clipboard_decoupling envV "k" "v" (by decide) (by decide)).1,
    (C5_clipboard_decoupling envV "k" "v" (by decide) (by decide)).2⟩

/-- Claim C6: decorator precedence — a caller-supplied non-empty value for
the configured parameter name makes the wrapped call run the inner function
on the caller's arguments unchanged; with the parameter absent and a secret
stored for the configured key, the inner function runs with the stored
secret injected under that parameter name. -/
theorem C6_decorator_precedence {α : Type} (env : Env) (key pname : String)
    (kwargs : Kwargs) (f : Kwargs → α) (v pw : String) :
    (kwargs.get pname = some v → v ≠ "" →
      require_password_call env key pname f kwargs = Except.ok (f kwargs)) ∧
    (kwargs.get pname = none → env.getRaises = false →
      env.kr.get SERVICE_NAME key = some pw →
      require_password_call env key pname f kwargs
        = Except.ok (f (kwargs.insert pname pw))) := by
  constructor
  · intro hv hne
    unfold require_password_call require_password_wrap
    have ht : pyTruthy (kwargs.get pname) = true := by
      rw [hv]; simp [pyTruthy, hne]
    simp [ht]
  · intro hv hg hpw
    unfold require_password_call require_password_wrap
    have ht : pyTruthy (kwargs.get pname) = false := by
      rw [hv]; rfl
    rw [get_password_ret env key false hg]
    simp [ht, hpw]

/-- Concrete instance of claim C6: the stored secret of "testkey" is not
injected over an explicit "manual_pass" argument, and is injected when the
argument is absent. -/
theorem C6_decorator_precedence_witness :
    (Kwargs.get kw1 "password" = some "manual_pass" ∧
      require_password_call envT "testkey" "password" readPw kw1
        = Except.ok (readPw kw1)) ∧
    (Kwargs.get kw0 "password" = none ∧
      require_password_call envT "testkey" "password" readPw kw0
        = Except.ok (readPw (Kwargs.insert kw0 "password" "testpass123"))) := by
  refine ⟨⟨by decide, ?_⟩, ⟨by decide, ?_⟩⟩
  · exact (C6_decorator_precedence envT "testkey" "password" kw1 readPw
      "manual_pass" "x").1 (by decide) (by decide)
  · exact (C6_decorator_precedence envT "testkey" "password" kw0 readPw
      "x" "testpass123").2 (by decide) (by decide) (by decide)

/-- Claim C7: decorator missing-secret failure — with no secret stored for
the configured key and no caller-supplied value for the parameter, the
wrapped call fails with an error whose message contains the key name, and
the inner function is never executed: for every inner function the result
is the same error. -/
theorem C7_decorator_missing_secret {α : Type} (env : Env)
    (key pname : String) (kwargs : Kwargs)
    (habs : (get_password env key false).ret = none)
    (hkw : kwargs.get pname = none) :
    (∀ f : Kwargs → α, require_password_call env key pname f kwargs
        = Except.error (requireMsg key)) ∧
    (∃ pre post, requireMsg key = pre ++ key ++ post) := by
  constructor
  · intro f
    unfold require_password_call require_password_wrap
    have ht : pyTruthy (kwargs.get pname) = false := by
      rw [hkw]; rfl
    simp [ht, habs]
  · refine ⟨"Password not found for key: ", "", ?_⟩
    simp [requireMsg]

/-- Concrete instance of claim C7: invoking a wrapped function with no
stored secret for "nonexistent" and empty keyword arguments. -/
theorem C7_decorator_missing_secret_witness :
    (get_password envNone "nonexistent" false).ret = none ∧
    Kwargs.get kw0 "password" = none ∧
    require_password_call envNone "nonexistent" "password" readPw kw0
      = Except.error (requireMsg "nonexistent") :=
  ⟨by decide, by decide,
    (C7_decorator_missing_secret envNone "nonexistent" "password" kw0
      (by decide) (by decide)).1 readPw⟩

/-- Claim C8 fails as stated on the code: the clipboard call is guarded by
Python truthiness, so a stored empty-string value is found by retrieval
(`ret = some ""`) yet the clipboard helper is not invoked even with the
flag set. -/
theorem C8_clipboard_counterexample :
    (get_password envEmptyVal "k" true).ret = some "" ∧
    (get_password envEmptyVal "k" true).clipArg = none := by
  constructor <;> decide

/-- Claim C8 (amended): for every key whose retrieval finds a NON-EMPTY
value, `get_password` with the clipboard flag passes exactly that value to
the clipboard helper (and when the helper does not fail, the clipboard then
holds it); with the flag unset the helper is never invoked. -/
theorem C8_clipboard_condition_amended (env : Env) (key value : String)
    (hg : env.getRaises = false)
    (h : env.kr.get SERVICE_NAME key = some value) (hne : value ≠ "") :
    (get_password env key true).clipArg = some value ∧
    (env.popenRaises = false →
      (get_password env key true).clipboard = some value) ∧
    (get_password env key false).clipArg = none := by
  have ht : pyTruthy (some value) = true := by
    simp [pyTruthy, hne]
  refine ⟨?_, fun hp => ?_, ?_⟩
  · unfold get_password
    simp [hg, ht, h]
  · unfold get_password
    simp [hg, ht, h, copy_to_clipboard, hp]
  · unfold get_password
    simp [hg]

/-- Concrete instance of the amended claim C8: retrieving the stored
non-empty value "v" with and without the clipboard flag. -/
theorem C8_clipboard_condition_amended_witness :
    envV.kr.get SERVICE_NAME "k" = some "v" ∧
    (get_password envV "k" true).clipArg = some "v" ∧
    (get_password envV "k" false).clipArg = none :=
  ⟨by decide,
    (C8_clipboard_condition_amended envV "k" "v" (by decide) (by decide)
      (by decide)).1,
    (C8_clipboard_condition_amended envV "k" "v" (by decide) (by decide)
      (by decide)).2.2⟩

/-- Claim C9: retrieval is non-destructive — `get_password` leaves the
keyring state unchanged for every environment, key and clipboard flag. -/
theorem C9_get_nondestructive (env : Env) (key : String) (c : Bool) :
    (get_password env key c).kr = env.kr := by
  unfold get_password
  split
  · rfl
  · dsimp only
    split <;> rfl

/-- Claim C10: a stored empty-string value counts as present for deletion —
`delete_password` returns `true` and removes the record, because its
existence check compares the retrieved value to None; by contrast the
clipboard path of `get_password` treats the same empty string as not found
and does not invoke the clipboard helper. -/
theorem C10_empty_value_deletable (env : Env) (key : String)
    (h : env.kr.get SERVICE_NAME key = some "")
    (hg : env.getRaises = false) (hd : env.delRaises = false) :
    (delete_password env key).ret = true ∧
    (delete_password env key).kr.get SERVICE_NAME key = none ∧
    (get_password env key true).clipArg = none := by
  refine ⟨?_, ?_, ?_⟩
  · unfold delete_password
    simp [hg, h, hd]
  · unfold delete_password
    simp [hg, h, hd, Keyring.get_del_self]
  · unfold get_password
    simp [hg, h, pyTruthy]

/-- Concrete instance of claim C10: the key "k" holding the empty string is
deleted successfully and removed. -/
theorem C10_empty_value_deletable_witness :
    envEmptyVal.kr.get SERVICE_NAME "k" = some "" ∧
    (delete_password envEmptyVal "k").ret = true ∧
    (delete_password envEmptyVal "k").kr.get SERVICE_NAME "k" = none :=
  ⟨by decide,
    (C10_empty_value_deletable envEmptyVal "k" (by decide) (by decide)
      (by decide)).1,
    (C10_empty_value_deletable envEmptyVal "k" (by decide) (by decide)
      (by decide)).2.1⟩

end Kcpwd
